import Mathlib

/-!
Shallow embedding of the derived-data computation layer of the expense
tracker (src/src/utils/helpers.ts, src/src/types.ts and the funding
handler in src/src/components/savings/AddFundsForm.tsx).

Amounts are JavaScript numbers used as exact decimals in the source; we
embed them as rationals.  Category identifiers are runtime strings in
JavaScript (the TypeScript union is erased), so categories are `String`
here and the sparse `Record<ExpenseCategory, number>` objects are
insertion-ordered association lists, which is exactly how JavaScript
objects behave for the operations the source performs on them.
-/

/-- Embeds the `Expense` interface of src/src/types.ts. -/
structure Expense where
  id : String
  amount : ℚ
  description : String
  category : String
  date : String
  createdAt : String
  userId : String
deriving DecidableEq, Repr

/-- Embeds the `Budget` interface of src/src/types.ts; the sparse
`categories` record is an insertion-ordered association list. -/
structure Budget where
  id : String
  month : String
  categories : List (String × ℚ)
  totalBudget : ℚ
deriving DecidableEq, Repr

/-- Embeds the `SavingsGoal` interface of src/src/types.ts. -/
structure SavingsGoal where
  id : String
  name : String
  targetAmount : ℚ
  currentAmount : ℚ
  startDate : String
  targetDate : String
  category : Option String
  icon : Option String
  userId : String
deriving DecidableEq, Repr

/-- Embeds the `MonthlyTotal` interface of src/src/types.ts. -/
structure MonthlyTotal where
  month : String
  total : ℚ
  categories : List (String × ℚ)
deriving DecidableEq, Repr

/-- JavaScript `String.prototype.startsWith` on the underlying character
sequences. -/
def listStartsWith : List Char → List Char → Bool
  | _, [] => true
  | [], _ :: _ => false
  | a :: s, b :: p => a = b && listStartsWith s p

/-- JavaScript `s.startsWith(p)` for Lean strings. -/
def strStartsWith (s p : String) : Bool :=
  listStartsWith s.data p.data

/-- JavaScript property read `m[c]` on an association-list object:
the value stored at key `c`, if any. -/
def lookupA {α : Type} : List (String × α) → String → Option α
  | [], _ => none
  | (k, v) :: t, c => if k = c then some v else lookupA t c

/-- One step of the source's per-category accumulation
(`if (!result[cat]) result[cat] = 0; result[cat] += amount`): update the
value at key `c` in place, appending the key at the end when absent,
exactly as JavaScript object assignment does. -/
def updAssoc : List (String × ℚ) → String → ℚ → List (String × ℚ)
  | [], c, a => [(c, a)]
  | (k, v) :: t, c, a =>
      if k = c then (k, v + a) :: t else (k, v) :: updAssoc t c a

/-- helpers.ts `filterExpensesByMonth`: the expenses whose ISO date string
starts with the month key. -/
def filterExpensesByMonth (expenses : List Expense) (month : String) : List Expense :=
  expenses.filter (fun expense => strStartsWith expense.date month)

/-- helpers.ts `calculateMonthlyTotal`: `reduce((total, e) => total + e.amount, 0)`
over the filtered expenses. -/
def calculateMonthlyTotal (expenses : List Expense) (month : String) : ℚ :=
  (filterExpensesByMonth expenses month).foldl (fun total expense => total + expense.amount) 0

/-- The `forEach` accumulation loop of helpers.ts `calculateExpensesByCategory`
(and of the identical inner loop of `getLastSixMonthsSummary`), starting
from the empty object. -/
def byCatFold (l : List Expense) : List (String × ℚ) :=
  l.foldl (fun acc expense => updAssoc acc expense.category expense.amount) []

/-- helpers.ts `calculateExpensesByCategory`. -/
def calculateExpensesByCategory (expenses : List Expense) (month : String) :
    List (String × ℚ) :=
  byCatFold (filterExpensesByMonth expenses month)

/-- helpers.ts `getCurrentBudget`.  The source draws the fresh id of the
default budget from the ambient `crypto.randomUUID()`; it is passed here as
the explicit argument `freshId`. -/
def getCurrentBudget (budgets : List Budget) (currentMonth : String)
    (freshId : String) : Budget :=
  match budgets.find? (fun b => b.month == currentMonth) with
  | some existingBudget => existingBudget
  | none => { id := freshId, month := currentMonth, categories := [], totalBudget := 0 }

/-- helpers.ts `calculateBudgetProgress`. -/
def calculateBudgetProgress (budget : Budget) (expenses : List Expense) : ℚ :=
  let monthlyTotal := calculateMonthlyTotal expenses budget.month
  if budget.totalBudget > 0 then monthlyTotal / budget.totalBudget * 100 else 0

/-- helpers.ts `calculateCategoryBudgetProgress`.
`budget.categories[category] || 0` reads the stored limit with default 0. -/
def calculateCategoryBudgetProgress (budget : Budget) (expenses : List Expense)
    (category : String) : ℚ :=
  let categoryBudget := (lookupA budget.categories category).getD 0
  let categoryExpenses :=
    ((filterExpensesByMonth expenses budget.month).filter
        (fun e => e.category = category)).foldl
      (fun total expense => total + expense.amount) 0
  if categoryBudget > 0 then categoryExpenses / categoryBudget * 100 else 0

/-- helpers.ts `calculateSavingsProgress`. -/
def calculateSavingsProgress (goal : SavingsGoal) : ℚ :=
  if goal.targetAmount > 0 then goal.currentAmount / goal.targetAmount * 100 else 0

/-! ### The JavaScript date model used by `getLastSixMonthsSummary`

The source copies `new Date()` and calls `date.setMonth(currentMonth - i)`,
then formats the result as `yyyy-MM`.  JavaScript `setMonth` keeps the
day-of-month and normalises an out-of-range day into the following month
(e.g. February 31 becomes March 2 or 3). -/

/-- A JavaScript calendar date: year, 0-based month (`getMonth()`), and
1-based day of month (`getDate()`). -/
structure JsDate where
  year : Int
  month : Int
  day : Int
deriving DecidableEq, Repr

/-- Gregorian leap-year rule, as used by JavaScript dates. -/
def isLeapYear (y : Int) : Bool :=
  (y.emod 4 = 0 && y.emod 100 ≠ 0) || y.emod 400 = 0

/-- Number of days of 0-based month `m` of year `y`. -/
def daysInMonth (y m : Int) : Int :=
  if m = 1 then (if isLeapYear y then 29 else 28)
  else if m = 3 || m = 5 || m = 8 || m = 10 then 30
  else 31

/-- JavaScript `date.setMonth(m)` for an in-range day of month: the month
index (possibly negative or above 11) is folded into the year, and a
day-of-month that the target month does not have spills into the following
month, exactly as JavaScript normalises it. -/
def jsSetMonth (d : JsDate) (m : Int) : JsDate :=
  let total := d.year * 12 + m
  let y := total.ediv 12
  let mo := total.emod 12
  if d.day ≤ daysInMonth y mo then ⟨y, mo, d.day⟩
  else
    let total' := total + 1
    ⟨total'.ediv 12, total'.emod 12, d.day - daysInMonth y mo⟩

/-- Decimal digits of `n`, left-padded with zeros to width `w` (date-fns
`yyyy` / `MM` padding). -/
def padNat (w : Nat) (n : Nat) : String :=
  let s := toString n
  ⟨List.replicate (w - s.length) '0'⟩ ++ s

/-- date-fns `format(date, 'yyyy-MM')`. -/
def formatYM (d : JsDate) : String :=
  padNat 4 d.year.toNat ++ "-" ++ padNat 2 (d.month.toNat + 1)

/-- The month key the source computes for offset `i` in its loop:
`format(setMonth(copy of now, now.getMonth() - i), 'yyyy-MM')`. -/
def monthStrOfOffset (now : JsDate) (i : Nat) : String :=
  formatYM (jsSetMonth now (now.month - (i : Int)))

/-- One entry pushed by the loop body of `getLastSixMonthsSummary`: the
month key, the reduced total and the per-category accumulation object over
the month's expenses. -/
def summaryFor (expenses : List Expense) (monthStr : String) : MonthlyTotal :=
  let monthlyExpenses := filterExpensesByMonth expenses monthStr
  { month := monthStr
    total := monthlyExpenses.foldl (fun sum expense => sum + expense.amount) 0
    categories := byCatFold monthlyExpenses }

/-- helpers.ts `getLastSixMonthsSummary`.  The source reads the ambient
current date with `new Date()`; it is passed here as the explicit argument
`now`.  The loop pushes entries for offsets 0..5 and the result is
reversed, oldest first. -/
def getLastSixMonthsSummary (expenses : List Expense) (now : JsDate) :
    List MonthlyTotal :=
  (((List.range 6).map (fun i => summaryFor expenses (monthStrOfOffset now i)))).reverse

/-- The `categoryMap` literal of helpers.ts `getPrettyCategoryName`. -/
def categoryMap : List (String × String) :=
  [ ("housing", "Housing"),
    ("transportation", "Transportation"),
    ("food", "Food & Dining"),
    ("utilities", "Utilities"),
    ("insurance", "Insurance"),
    ("healthcare", "Healthcare"),
    ("entertainment", "Entertainment"),
    ("personal", "Personal"),
    ("education", "Education"),
    ("debt", "Debt Payments"),
    ("savings", "Savings"),
    ("gifts", "Gifts & Donations"),
    ("other", "Other") ]

/-- helpers.ts `getPrettyCategoryName`: `categoryMap[category] || category`. -/
def getPrettyCategoryName (category : String) : String :=
  (lookupA categoryMap category).getD category

/-- helpers.ts `getCategories`. -/
def getCategories : List String :=
  [ "housing", "transportation", "food", "utilities", "insurance",
    "healthcare", "entertainment", "personal", "education", "debt",
    "savings", "gifts", "other" ]

/-- helpers.ts `getCategoryColors` (keys in source literal order). -/
def getCategoryColors : List (String × String) :=
  [ ("housing", "#0D9488"),
    ("transportation", "#8B5CF6"),
    ("food", "#22c55e"),
    ("utilities", "#f59e0b"),
    ("healthcare", "#ef4444"),
    ("insurance", "#3b82f6"),
    ("entertainment", "#ec4899"),
    ("personal", "#8b5cf6"),
    ("education", "#14b8a6"),
    ("debt", "#f43f5e"),
    ("savings", "#06b6d4"),
    ("gifts", "#a855f7"),
    ("other", "#6b7280") ]

/-- Embeds the `User` interface of src/src/types.ts. -/
structure User where
  id : String
  email : String
deriving DecidableEq, Repr

/-- Embeds the `AppState` interface of src/src/types.ts (`user: User | null`
becomes an option). -/
structure AppState where
  expenses : List Expense
  budgets : List Budget
  savingsGoals : List SavingsGoal
  currentMonth : String
  monthlySummaries : List MonthlyTotal
  user : Option User
deriving DecidableEq, Repr

/-- The `updateSavingsAmount` operation of the application context
(AppContext.tsx, appended in src/src/index.css lines 399-426).  It is a
no-op when no user is signed in or when no stored goal has the given id;
otherwise it issues the persistence update — whose success or failure is an
outcome of the external store, passed here as the explicit argument
`storeError` — and only on success (`!error`) maps the stored goal with
that id to one whose `currentAmount` is the given amount. -/
def updateSavingsAmount (state : AppState) (id : String) (amount : ℚ)
    (storeError : Bool) : AppState :=
  match state.user with
  | none => state
  | some _ =>
    match state.savingsGoals.find? (fun g => g.id == id) with
    | none => state
    | some _ =>
      if storeError then state
      else
        { state with savingsGoals := state.savingsGoals.map (fun goal =>
            if goal.id == id then { goal with currentAmount := amount } else goal) }

/-- The two rejection branches of `handleAddFunds` in
src/src/components/savings/AddFundsForm.tsx. -/
inductive FundError where
  | invalidAmount
  | exceedsTarget
deriving DecidableEq, Repr

/-- The `handleAddFunds` submit handler of
src/src/components/savings/AddFundsForm.tsx: rejects a non-positive
amount, rejects when `current + amount` exceeds the target without
touching the state, and otherwise calls
`updateSavingsAmount(goal.id, newTotal)` on the context state. -/
def handleAddFunds (state : AppState) (goal : SavingsGoal) (numAmount : ℚ)
    (storeError : Bool) : Except FundError AppState :=
  if numAmount ≤ 0 then .error .invalidAmount
  else
    let newTotal := goal.currentAmount + numAmount
    if newTotal > goal.targetAmount then .error .exceedsTarget
    else .ok (updateSavingsAmount state goal.id newTotal storeError)

/-! ### Specification-side sums and the lemmas relating them to the folds -/

/-- The sum of the amounts of a list of expenses. -/
def sumAmounts (l : List Expense) : ℚ :=
  (l.map Expense.amount).sum

/-- The sum of the values of an association-list object. -/
def sumValues (m : List (String × ℚ)) : ℚ :=
  (m.map Prod.snd).sum

lemma foldl_add_amount (l : List Expense) (init : ℚ) :
    l.foldl (fun total e => total + e.amount) init = init + sumAmounts l := by
  induction l generalizing init with
  | nil => simp [sumAmounts]
  | cons e t ih => simp only [List.foldl_cons, ih, sumAmounts, List.map_cons, List.sum_cons]; ring

lemma lookupA_updAssoc (acc : List (String × ℚ)) (k c : String) (a : ℚ) :
    lookupA (updAssoc acc k a) c =
      if c = k then some ((lookupA acc k).getD 0 + a) else lookupA acc c := by
  induction acc with
  | nil =>
    by_cases h : c = k
    · subst h; simp [updAssoc, lookupA]
    · simp [updAssoc, lookupA, h, Ne.symm h]
  | cons p t ih =>
    obtain ⟨k', v⟩ := p
    by_cases hk : k' = k
    · subst hk
      by_cases hc : c = k'
      · subst hc; simp [updAssoc, lookupA]
      · simp [updAssoc, lookupA, hc, Ne.symm hc]
    · by_cases hc : k' = c
      · subst hc
        have : ¬ k' = k := hk
        simp [updAssoc, lookupA, hk, fun h : k' = k => hk h, Ne.symm hk]
      · simp [updAssoc, lookupA, hk, hc, ih]

lemma getD_lookupA_updAssoc (acc : List (String × ℚ)) (k c : String) (a : ℚ) :
    (lookupA (updAssoc acc k a) c).getD 0 =
      (lookupA acc c).getD 0 + if c = k then a else 0 := by
  rw [lookupA_updAssoc]
  by_cases h : c = k
  · subst h; simp
  · simp [h]

lemma isSome_lookupA_updAssoc (acc : List (String × ℚ)) (k c : String) (a : ℚ) :
    (lookupA (updAssoc acc k a) c).isSome = true ↔
      (lookupA acc c).isSome = true ∨ c = k := by
  rw [lookupA_updAssoc]
  by_cases h : c = k
  · subst h; simp
  · simp [h]

lemma sumValues_updAssoc (acc : List (String × ℚ)) (k : String) (a : ℚ) :
    sumValues (updAssoc acc k a) = sumValues acc + a := by
  induction acc with
  | nil => simp [updAssoc, sumValues]
  | cons p t ih =>
    obtain ⟨k', v⟩ := p
    by_cases h : k' = k
    · subst h
      have hu : updAssoc ((k', v) :: t) k' a = (k', v + a) :: t := by simp [updAssoc]
      rw [hu]
      simp only [sumValues, List.map_cons, List.sum_cons]
      ring
    · simp only [updAssoc, if_neg h, sumValues, List.map_cons, List.sum_cons] at ih ⊢
      rw [ih]; ring

lemma byCatFoldAux_getD (l : List Expense) (acc : List (String × ℚ)) (c : String) :
    (lookupA (l.foldl (fun acc e => updAssoc acc e.category e.amount) acc) c).getD 0
      = (lookupA acc c).getD 0 + sumAmounts (l.filter (fun e => e.category = c)) := by
  induction l generalizing acc with
  | nil => simp [sumAmounts]
  | cons e t ih =>
    rw [List.foldl_cons, ih, getD_lookupA_updAssoc]
    by_cases h : e.category = c
    · simp only [List.filter_cons, h, sumAmounts, List.map_cons, List.sum_cons]
      simp only [sumAmounts] at *
      simp [h]
      ring
    · have h' : ¬ c = e.category := fun hc => h hc.symm
      simp [List.filter_cons, h, h', sumAmounts]

lemma byCatFoldAux_isSome (l : List Expense) (acc : List (String × ℚ)) (c : String) :
    (lookupA (l.foldl (fun acc e => updAssoc acc e.category e.amount) acc) c).isSome = true ↔
      (lookupA acc c).isSome = true ∨ ∃ e ∈ l, e.category = c := by
  induction l generalizing acc with
  | nil => simp
  | cons e t ih =>
    rw [List.foldl_cons, ih, isSome_lookupA_updAssoc]
    constructor
    · rintro ((h | h) | ⟨e', he', hc⟩)
      · exact Or.inl h
      · exact Or.inr ⟨e, List.mem_cons_self e t, h.symm⟩
      · exact Or.inr ⟨e', List.mem_cons_of_mem e he', hc⟩
    · rintro (h | ⟨e', he', hc⟩)
      · exact Or.inl (Or.inl h)
      · rcases List.mem_cons.mp he' with h' | h'
        · exact Or.inl (Or.inr (h' ▸ hc.symm))
        · exact Or.inr ⟨e', h', hc⟩

lemma byCatFoldAux_sumValues (l : List Expense) (acc : List (String × ℚ)) :
    sumValues (l.foldl (fun acc e => updAssoc acc e.category e.amount) acc)
      = sumValues acc + sumAmounts l := by
  induction l generalizing acc with
  | nil => simp [sumAmounts]
  | cons e t ih =>
    rw [List.foldl_cons, ih, sumValues_updAssoc]
    simp only [sumAmounts, List.map_cons, List.sum_cons]
    ring

lemma byCatFold_getD (l : List Expense) (c : String) :
    (lookupA (byCatFold l) c).getD 0 = sumAmounts (l.filter (fun e => e.category = c)) := by
  have := byCatFoldAux_getD l [] c
  simpa [byCatFold, lookupA] using this

lemma byCatFold_isSome (l : List Expense) (c : String) :
    (lookupA (byCatFold l) c).isSome = true ↔ ∃ e ∈ l, e.category = c := by
  have := byCatFoldAux_isSome l [] c
  simpa [byCatFold, lookupA] using this

lemma byCatFold_sumValues (l : List Expense) :
    sumValues (byCatFold l) = sumAmounts l := by
  have := byCatFoldAux_sumValues l []
  simpa [byCatFold, sumValues] using this

lemma calculateMonthlyTotal_eq_sumAmounts (E : List Expense) (M : String) :
    calculateMonthlyTotal E M = sumAmounts (filterExpensesByMonth E M) := by
  unfold calculateMonthlyTotal
  rw [foldl_add_amount]
  ring

lemma mem_filterExpensesByMonth (E : List Expense) (M : String) (e : Expense) :
    e ∈ filterExpensesByMonth E M ↔ e ∈ E ∧ strStartsWith e.date M = true := by
  simp [filterExpensesByMonth, List.mem_filter]

/-! ### Concrete records used by the worked examples of the spec -/

/-- The spec's savings-goal example: target 100, current 80. -/
def exGoal : SavingsGoal :=
  { id := "g1", name := "Vacation", targetAmount := 100, currentAmount := 80,
    startDate := "2024-01-01", targetDate := "2024-12-31", category := none,
    icon := none, userId := "u1" }

/-- A signed-in user. -/
def exUser : User :=
  { id := "u1", email := "user@example.com" }

/-- An app state holding the example goal under a signed-in user. -/
def exState : AppState :=
  { expenses := [], budgets := [], savingsGoals := [exGoal],
    currentMonth := "2024-06", monthlySummaries := [], user := some exUser }

/-- The same state with nobody signed in. -/
def exStateNoUser : AppState :=
  { exState with user := none }

/-- The spec's June-2024 expense scenario. -/
def exExpenses : List Expense :=
  [ { id := "e1", amount := 100, description := "groceries", category := "food",
      date := "2024-06-01", createdAt := "2024-06-01T10:00:00Z", userId := "u1" },
    { id := "e2", amount := 50, description := "dinner", category := "food",
      date := "2024-06-15", createdAt := "2024-06-15T10:00:00Z", userId := "u1" },
    { id := "e3", amount := 30, description := "repairs", category := "housing",
      date := "2024-06-02", createdAt := "2024-06-02T10:00:00Z", userId := "u1" } ]

/-- A June-2024 budget with a food limit of 200. -/
def exBudget : Budget :=
  { id := "b1", month := "2024-06", categories := [("food", 200)], totalBudget := 500 }

/-- The spec's category-progress example: a single food expense of 50. -/
def exFoodExpense : Expense :=
  { id := "e4", amount := 50, description := "lunch", category := "food",
    date := "2024-06-20", createdAt := "2024-06-20T10:00:00Z", userId := "u1" }

/-! ### Claim theorems -/

/-- Claim C1 (code bug): the rolling summary is not calendar-correct for
every "now".  Evaluated at now = 2024-03-31 (a day of month that does not
exist in every covered month) with an empty expense collection, the six
month keys the code produces skip 2023-11 and 2024-02 and duplicate
2023-12 and 2024-03, because JavaScript `setMonth` keeps day 31 and spills
it into the following month.  The claim requires the keys
[2023-10, 2023-11, 2023-12, 2024-01, 2024-02, 2024-03]. -/
theorem getLastSixMonthsSummary_march31_eval :
    (getLastSixMonthsSummary [] ⟨2024, 2, 31⟩).map MonthlyTotal.month =
      ["2023-10", "2023-12", "2023-12", "2024-01", "2024-03", "2024-03"] := by
  decide

/-- Counterexample for claim C2: with no user signed in, funding 20 into
the stored 80/100 goal reports no error, yet the stored goal's
`currentAmount` stays 80 instead of becoming 100 — `updateSavingsAmount`
returns the state unchanged on its `!state.user` guard, so "otherwise it
succeeds and the stored currentAmount becomes exactly
currentAmount + increment" fails as stated. -/
theorem handleAddFunds_signed_out_counterexample :
    handleAddFunds exStateNoUser exGoal 20 false = .ok exStateNoUser ∧
    exGoal.currentAmount + 20 = 100 ∧
    exStateNoUser.savingsGoals = [exGoal] ∧ exGoal.currentAmount = 80 ∧
    (80 : ℚ) ≠ 100 := by
  refine ⟨?_, by norm_num [exGoal], rfl, rfl, by norm_num⟩
  norm_num [handleAddFunds, updateSavingsAmount, exStateNoUser, exState, exGoal]

/-- Claim C2 as amended: for every app state, goal and positive increment,
funding rejects with an error and leaves the state untouched when
`currentAmount + increment` exceeds `targetAmount`; otherwise it reports no
error and hands `currentAmount + increment` to `updateSavingsAmount`, which
stores it as the `currentAmount` of the stored goal with that id exactly
when a user is signed in, such a goal is stored, and the persistence call
reports no error — and leaves the state unchanged when signed out or on a
store error.  For the stored 80/100 goal under a signed-in user with no
store error, funding 30 is rejected and funding 20 stores 100, giving
savings progress 100. -/
theorem handleAddFunds_spec (s : AppState) (g : SavingsGoal) (a : ℚ) (ha : 0 < a) :
    (∀ err, g.targetAmount < g.currentAmount + a →
      handleAddFunds s g a err = .error .exceedsTarget) ∧
    (g.currentAmount + a ≤ g.targetAmount → ∀ u g₀, s.user = some u →
      s.savingsGoals.find? (fun x => x.id == g.id) = some g₀ →
      handleAddFunds s g a false = .ok
        { s with savingsGoals := s.savingsGoals.map (fun x =>
            if x.id == g.id then { x with currentAmount := g.currentAmount + a }
            else x) }) ∧
    (g.currentAmount + a ≤ g.targetAmount → s.user = none →
      ∀ err, handleAddFunds s g a err = .ok s) ∧
    (g.currentAmount + a ≤ g.targetAmount →
      handleAddFunds s g a true = .ok s) ∧
    handleAddFunds exState exGoal 30 false = .error .exceedsTarget ∧
    handleAddFunds exState exGoal 20 false =
      .ok { exState with savingsGoals := [{ exGoal with currentAmount := 100 }] } ∧
    calculateSavingsProgress { exGoal with currentAmount := 100 } = 100 := by
  refine ⟨?_, ?_, ?_, ?_,
    by norm_num [handleAddFunds, exState, exGoal],
    by norm_num [handleAddFunds, updateSavingsAmount, exState, exGoal, List.find?],
    by norm_num [calculateSavingsProgress, exGoal]⟩
  · intro err h
    simp [handleAddFunds, not_le.mpr ha, h]
  · intro h u g₀ hu hf
    simp [handleAddFunds, not_le.mpr ha, not_lt.mpr h, updateSavingsAmount, hu, hf]
  · intro h hn err
    simp [handleAddFunds, not_le.mpr ha, not_lt.mpr h, updateSavingsAmount, hn]
  · intro h
    simp only [handleAddFunds, updateSavingsAmount]
    rw [if_neg (not_le.mpr ha), if_neg (not_lt.mpr h)]
    cases hu : s.user with
    | none => rfl
    | some u =>
      cases hf : s.savingsGoals.find? (fun x => x.id == g.id) with
      | none => rfl
      | some g₀ => simp

/-- Witness for C2: under the signed-in example state, funding 20 into the
stored 80/100 goal is accepted and the stored goal's amount becomes
`80 + 20`. -/
theorem handleAddFunds_spec_witness :
    (0 : ℚ) < 20 ∧ exGoal.currentAmount + 20 ≤ exGoal.targetAmount ∧
      exState.user = some exUser ∧
      exState.savingsGoals.find? (fun x => x.id == exGoal.id) = some exGoal ∧
      handleAddFunds exState exGoal 20 false = .ok
        { exState with savingsGoals := exState.savingsGoals.map (fun x =>
            if x.id == exGoal.id then { x with currentAmount := exGoal.currentAmount + 20 }
            else x) } :=
  ⟨by norm_num, by norm_num [exGoal], rfl, rfl,
    (handleAddFunds_spec exState exGoal 20 (by norm_num)).2.1
      (by norm_num [exGoal]) exUser exGoal rfl rfl⟩

/-- Claim C3: `filterExpensesByMonth` returns exactly the expenses whose
date starts with the month key, `calculateMonthlyTotal` their summed
amounts, and `calculateExpensesByCategory` the per-category sums of that
subset (a key is present exactly when the subset has an expense of that
category); with no matching expenses the results are `[]`, `0` and the
empty map; and the spec's June-2024 scenario yields total 180 and
per-category totals food 150, housing 30. -/
theorem aggregation_spec (E : List Expense) (M : String) :
    (∀ e, e ∈ filterExpensesByMonth E M ↔ e ∈ E ∧ strStartsWith e.date M = true) ∧
    calculateMonthlyTotal E M = sumAmounts (filterExpensesByMonth E M) ∧
    (∀ c, (lookupA (calculateExpensesByCategory E M) c).getD 0 =
      sumAmounts ((filterExpensesByMonth E M).filter (fun e => e.category = c))) ∧
    (∀ c, (lookupA (calculateExpensesByCategory E M) c).isSome = true ↔
      ∃ e ∈ filterExpensesByMonth E M, e.category = c) ∧
    (filterExpensesByMonth E M = [] →
      calculateMonthlyTotal E M = 0 ∧ calculateExpensesByCategory E M = []) ∧
    calculateMonthlyTotal exExpenses "2024-06" = 180 ∧
    calculateExpensesByCategory exExpenses "2024-06" = [("food", 150), ("housing", 30)] := by
  have hf : filterExpensesByMonth exExpenses "2024-06" = exExpenses := rfl
  refine ⟨mem_filterExpensesByMonth E M, calculateMonthlyTotal_eq_sumAmounts E M,
    ?_, ?_, ?_,
    by rw [calculateMonthlyTotal_eq_sumAmounts, hf]; norm_num [sumAmounts, exExpenses],
    by rw [calculateExpensesByCategory, hf]; norm_num [byCatFold, updAssoc, exExpenses]; decide⟩
  · intro c
    rw [calculateExpensesByCategory, byCatFold_getD]
  · intro c
    rw [calculateExpensesByCategory, byCatFold_isSome]
  · intro h
    rw [calculateMonthlyTotal_eq_sumAmounts, calculateExpensesByCategory, h]
    exact ⟨rfl, rfl⟩

/-- Witness for C3: on an empty collection the aggregates are empty and zero. -/
theorem aggregation_spec_witness :
    filterExpensesByMonth [] "2024-06" = [] ∧
      (calculateMonthlyTotal [] "2024-06" = 0 ∧
        calculateExpensesByCategory [] "2024-06" = []) :=
  ⟨rfl, (aggregation_spec [] "2024-06").2.2.2.2.1 rfl⟩

/-- Claim C4: the summed amounts of the month's filtered expenses equal the
monthly total, and the sum of the values of the per-category map equals
the monthly total. -/
theorem aggregation_sum_relations (E : List Expense) (M : String) :
    sumAmounts (filterExpensesByMonth E M) = calculateMonthlyTotal E M ∧
    sumValues (calculateExpensesByCategory E M) = calculateMonthlyTotal E M := by
  refine ⟨(calculateMonthlyTotal_eq_sumAmounts E M).symm, ?_⟩
  rw [calculateExpensesByCategory, byCatFold_sumValues, calculateMonthlyTotal_eq_sumAmounts]

/-- Claim C5: budget progress is `spent / totalLimit * 100` for a positive
total limit and exactly 0 for a zero total limit, with no division by
zero. -/
theorem calculateBudgetProgress_spec (b : Budget) (E : List Expense) :
    (0 < b.totalBudget →
      calculateBudgetProgress b E =
        calculateMonthlyTotal E b.month / b.totalBudget * 100) ∧
    (b.totalBudget = 0 → calculateBudgetProgress b E = 0) := by
  constructor
  · intro h
    simp [calculateBudgetProgress, h]
  · intro h
    simp [calculateBudgetProgress, h]

/-- Witness for C5: a 500-limit June budget against the June scenario. -/
theorem calculateBudgetProgress_spec_witness :
    ((0 : ℚ) < exBudget.totalBudget ∧
      calculateBudgetProgress exBudget exExpenses =
        calculateMonthlyTotal exExpenses exBudget.month / exBudget.totalBudget * 100) ∧
    ((⟨"b0", "2024-06", [], 0⟩ : Budget).totalBudget = 0 ∧
      calculateBudgetProgress ⟨"b0", "2024-06", [], 0⟩ exExpenses = 0) :=
  ⟨⟨by norm_num [exBudget],
      (calculateBudgetProgress_spec exBudget exExpenses).1 (by norm_num [exBudget])⟩,
    ⟨rfl, (calculateBudgetProgress_spec ⟨"b0", "2024-06", [], 0⟩ exExpenses).2 rfl⟩⟩

/-- Claim C6: category budget progress is the category's month spend over
its stored positive limit times 100, and 0 when the category has no limit
set; the spec's example (expense 50 in food, food limit 200, same month)
yields exactly 25. -/
theorem calculateCategoryBudgetProgress_spec (b : Budget) (E : List Expense)
    (c : String) :
    (∀ l, lookupA b.categories c = some l → 0 < l →
      calculateCategoryBudgetProgress b E c =
        sumAmounts ((filterExpensesByMonth E b.month).filter
          (fun e => e.category = c)) / l * 100) ∧
    (lookupA b.categories c = none → calculateCategoryBudgetProgress b E c = 0) ∧
    calculateCategoryBudgetProgress exBudget [exFoodExpense] "food" = 25 := by
  refine ⟨?_, ?_, ?_⟩
  · intro l hl hpos
    unfold calculateCategoryBudgetProgress
    rw [hl]
    simp only [Option.getD_some]
    rw [if_pos hpos, foldl_add_amount]
    ring
  · intro h
    unfold calculateCategoryBudgetProgress
    rw [h]
    simp
  · have hf : (filterExpensesByMonth [exFoodExpense] exBudget.month).filter
        (fun e => e.category = "food") = [exFoodExpense] := rfl
    unfold calculateCategoryBudgetProgress
    rw [hf]
    norm_num [exBudget, exFoodExpense, lookupA]

/-- Witness for C6: the food limit of the example budget is stored and
positive, and the progress equals the spend-over-limit ratio. -/
theorem calculateCategoryBudgetProgress_spec_witness :
    lookupA exBudget.categories "food" = some 200 ∧ (0 : ℚ) < 200 ∧
      calculateCategoryBudgetProgress exBudget [exFoodExpense] "food" =
        sumAmounts ((filterExpensesByMonth [exFoodExpense] exBudget.month).filter
          (fun e => e.category = "food")) / 200 * 100 :=
  ⟨rfl, by norm_num,
    (calculateCategoryBudgetProgress_spec exBudget [exFoodExpense] "food").1 200
      rfl (by norm_num)⟩

/-- Counterexample for claim C7: the rolling summary builder's result does
not depend only on the expense collection it is passed — the source reads
the ambient current date with `new Date()` (modelled by the explicit `now`
argument), and two calls with the identical argument `[]` at two ambient
dates give different results. -/
theorem getLastSixMonthsSummary_ambient_now :
    getLastSixMonthsSummary [] ⟨2024, 0, 15⟩ ≠ getLastSixMonthsSummary [] ⟨2024, 5, 15⟩ := by
  decide

/-- Claim C7 as amended: every core function is a pure function of its
inputs — for the aggregation and progress functions, of the arguments
alone; for the rolling summary builder, of its argument together with the
ambient current date it reads — so two calls with identical inputs
(including, for the summary builder, an identical ambient date) yield
identical results and nothing is mutated. -/
theorem core_functions_deterministic :
    (∀ E M, filterExpensesByMonth E M = filterExpensesByMonth E M ∧
      calculateMonthlyTotal E M = calculateMonthlyTotal E M ∧
      calculateExpensesByCategory E M = calculateExpensesByCategory E M) ∧
    (∀ b E c, calculateBudgetProgress b E = calculateBudgetProgress b E ∧
      calculateCategoryBudgetProgress b E c = calculateCategoryBudgetProgress b E c) ∧
    (∀ g, calculateSavingsProgress g = calculateSavingsProgress g) ∧
    (∀ E now, getLastSixMonthsSummary E now = getLastSixMonthsSummary E now) :=
  ⟨fun _ _ => ⟨rfl, rfl, rfl⟩, fun _ _ _ => ⟨rfl, rfl⟩, fun _ => rfl, fun _ _ => rfl⟩

/-- Claim C8: the taxonomy is the fixed ordered list of exactly the 13
identifiers; each of them has a stored display label (which is what
`getPrettyCategoryName` returns) and a stored display color; an
unrecognized identifier falls back to itself. -/
theorem categoryTaxonomy_spec :
    getCategories = ["housing", "transportation", "food", "utilities", "insurance",
      "healthcare", "entertainment", "personal", "education", "debt",
      "savings", "gifts", "other"] ∧
    getCategories.length = 13 ∧
    (∀ c ∈ getCategories, lookupA categoryMap c = some (getPrettyCategoryName c)) ∧
    (∀ c, lookupA categoryMap c = none → getPrettyCategoryName c = c) ∧
    (∀ c ∈ getCategories, (lookupA getCategoryColors c).isSome = true) := by
  refine ⟨rfl, rfl, by decide, ?_, by decide⟩
  intro c h
  simp [getPrettyCategoryName, h]

/-- Witness for C8: the label of "food" comes from the table, and the
unknown identifier "lunar" falls back to itself. -/
theorem categoryTaxonomy_spec_witness :
    ("food" ∈ getCategories ∧ lookupA categoryMap "food" = some (getPrettyCategoryName "food")) ∧
    (lookupA categoryMap "lunar" = none ∧ getPrettyCategoryName "lunar" = "lunar") ∧
    ("food" ∈ getCategories ∧ (lookupA getCategoryColors "food").isSome = true) :=
  ⟨⟨by decide, categoryTaxonomy_spec.2.2.1 "food" (by decide)⟩,
    ⟨by decide, categoryTaxonomy_spec.2.2.2.1 "lunar" (by decide)⟩,
    ⟨by decide, categoryTaxonomy_spec.2.2.2.2 "food" (by decide)⟩⟩

lemma find?_month_append (l : List Budget) (b : Budget) (r : List Budget)
    (M : String) (hb : b.month = M) (hl : ∀ b' ∈ l, b'.month ≠ M) :
    (l ++ b :: r).find? (fun x => x.month == M) = some b := by
  induction l with
  | nil =>
    have hb' : (b.month == M) = true := by simpa using hb
    simp [List.find?, hb']
  | cons x t ih =>
    have hx : (x.month == M) = false := by
      simpa using hl x (List.mem_cons_self x t)
    rw [List.cons_append]
    simp only [List.find?, hx]
    exact ih (fun b' hb' => hl b' (List.mem_cons_of_mem x hb'))

lemma find?_month_none (bs : List Budget) (M : String)
    (h : ∀ b ∈ bs, b.month ≠ M) :
    bs.find? (fun x => x.month == M) = none := by
  induction bs with
  | nil => rfl
  | cons x t ih =>
    have hx : (x.month == M) = false := by
      simpa using h x (List.mem_cons_self x t)
    simp only [List.find?, hx]
    exact ih (fun b' hb' => h b' (List.mem_cons_of_mem x hb'))

/-- Claim C9: when some stored budget has the requested month,
`getCurrentBudget` returns the first such budget unchanged; otherwise it
returns a fresh default budget for that month with zero total budget and an
empty per-category map, whose budget progress is 0 against any expense
collection. -/
theorem getCurrentBudget_spec (bs : List Budget) (M freshId : String)
    (E : List Expense) :
    (∀ l b r, bs = l ++ b :: r → b.month = M → (∀ b' ∈ l, b'.month ≠ M) →
      getCurrentBudget bs M freshId = b) ∧
    ((∀ b ∈ bs, b.month ≠ M) →
      getCurrentBudget bs M freshId =
        { id := freshId, month := M, categories := [], totalBudget := 0 } ∧
      calculateBudgetProgress (getCurrentBudget bs M freshId) E = 0) := by
  constructor
  · rintro l b r rfl hb hl
    rw [getCurrentBudget, find?_month_append l b r M hb hl]
  · intro h
    have hn := find?_month_none bs M h
    constructor
    · rw [getCurrentBudget, hn]
    · rw [getCurrentBudget, hn]
      simp [calculateBudgetProgress]

/-- Witness for C9: a one-budget store hit for its own month, and a miss
for a month with no stored budget. -/
theorem getCurrentBudget_spec_witness :
    getCurrentBudget [exBudget] "2024-06" "fresh" = exBudget ∧
      (getCurrentBudget [exBudget] "2025-01" "fresh" =
        { id := "fresh", month := "2025-01", categories := [], totalBudget := 0 } ∧
      calculateBudgetProgress (getCurrentBudget [exBudget] "2025-01" "fresh") exExpenses = 0) :=
  ⟨(getCurrentBudget_spec [exBudget] "2024-06" "fresh" exExpenses).1 [] exBudget []
      rfl rfl (by simp),
    (getCurrentBudget_spec [exBudget] "2025-01" "fresh" exExpenses).2 (by decide)⟩

/-- Claim C10: every entry of the rolling summary is internally consistent:
its total is the sum of the values of its per-category map, and a category
key is present in that map exactly when some expense dated in the entry's
month has that category. -/
theorem monthlyTotal_internal_consistency (E : List Expense) (now : JsDate)
    (mt : MonthlyTotal) (h : mt ∈ getLastSixMonthsSummary E now) :
    mt.total = sumValues mt.categories ∧
    (∀ c, (lookupA mt.categories c).isSome = true ↔
      ∃ e ∈ E, strStartsWith e.date mt.month = true ∧ e.category = c) := by
  rw [getLastSixMonthsSummary, List.mem_reverse, List.mem_map] at h
  obtain ⟨i, _, rfl⟩ := h
  constructor
  · simp only [summaryFor]
    rw [foldl_add_amount, byCatFold_sumValues]
    ring
  · intro c
    simp only [summaryFor]
    rw [byCatFold_isSome]
    constructor
    · rintro ⟨e, he, hc⟩
      rcases (mem_filterExpensesByMonth E _ e).mp he with ⟨heE, hdate⟩
      exact ⟨e, heE, hdate, hc⟩
    · rintro ⟨e, heE, hdate, hc⟩
      exact ⟨e, (mem_filterExpensesByMonth E _ e).mpr ⟨heE, hdate⟩, hc⟩

/-- Witness for C10: the newest entry of the summary for an empty
collection at 2024-06-15. -/
theorem monthlyTotal_internal_consistency_witness :
    (⟨"2024-06", 0, []⟩ : MonthlyTotal) ∈ getLastSixMonthsSummary [] ⟨2024, 5, 15⟩ ∧
      ((⟨"2024-06", 0, []⟩ : MonthlyTotal).total =
          sumValues (⟨"2024-06", 0, []⟩ : MonthlyTotal).categories ∧
        (∀ c, (lookupA (⟨"2024-06", 0, []⟩ : MonthlyTotal).categories c).isSome = true ↔
          ∃ e ∈ ([] : List Expense),
            strStartsWith e.date (⟨"2024-06", 0, []⟩ : MonthlyTotal).month = true ∧
              e.category = c)) :=
  ⟨by decide,
    monthlyTotal_internal_consistency [] ⟨2024, 5, 15⟩ ⟨"2024-06", 0, []⟩ (by decide)⟩

